import Mathlib

/-!
Shallow embedding of the pandora_backend authorization / tenant-routing core.

Sources embedded here:
- src/routes/admin.py   (organization / user / database / grant endpoints)
- src/core/audit.py     (log_access, the deduplicated access-audit path)
- src/core/core_resolver.py (get_core_url, check_core_health)
- src/routes/sql_proxy.py   (check_database_access, generate_sql)

Conventions of the embedding:
- SQLAlchemy rows become Lean structures; the session becomes an explicit
  Store value threaded through each operation.
- Every endpoint returns the store as committed when the endpoint returns or
  raises: a raise before any commit leaves the store unchanged (the session
  is rolled back by the framework), while commits that happened before the
  raise persist.
- HTTPException(status, detail) becomes the HErr structure; a raising
  endpoint returns Except.error.
- Python truthiness of optional integers and strings (None, 0 and "" are
  falsy) is modelled by the truthy / truthyS helpers.
- datetimes become Nat seconds; the current instant is an explicit argument.
- Auto-increment primary keys are modelled by nextId (one more than the
  largest id present).
- Fields opaque to the claims (connection attributes, ip/user-agent
  metadata, wall-clock durations) are elided or fixed, as noted per
  definition.
-/

namespace Pandora

/-- models/user.py UserRole enum. -/
inductive Role where
  | super_admin
  | admin
  | user
deriving DecidableEq, Repr

/-- Python truthiness of an optional integer: None and 0 are falsy. -/
def truthy : Option Nat → Bool
  | none => false
  | some n => n != 0

/-- Python truthiness of an optional string: None and the empty string are falsy. -/
def truthyS : Option String → Bool
  | none => false
  | some s => s != ""

/-- models/user.py User row (password hash kept abstract, timestamps elided
except last_login which the listing sweep reads). -/
structure UserRec where
  id : Nat
  username : String
  email : Option String
  full_name : Option String
  password_hash : String
  role : Role
  is_active : Bool
  client_id : Option Nat
  organization_id : Option Nat
  last_login : Option Nat
deriving DecidableEq, Repr

/-- models/organization.py Organization row. -/
structure Org where
  id : Nat
  name : String
  description : Option String
  is_root : Bool
deriving DecidableEq, Repr

/-- models/client.py Client row. -/
structure ClientRec where
  id : Nat
  name : String
  contact_email : String
  organization_id : Nat
deriving DecidableEq, Repr

/-- models/client_database.py ClientDatabase row (connection attributes are
opaque to the core and elided). -/
structure DbRec where
  id : Nat
  name : String
  description : Option String
  client_id : Nat
deriving DecidableEq, Repr

/-- models/user_database_access.py UserDatabaseAccess row. -/
structure GrantRec where
  id : Nat
  user_id : Nat
  database_id : Nat
  can_read : Bool
  can_write : Bool
  created_by : Option Nat
deriving DecidableEq, Repr

/-- models/chat.py Chat row (only the columns the cascade delete reads). -/
structure ChatRec where
  id : Nat
  user_id : Nat
deriving DecidableEq, Repr

/-- models/messages.py Message row (only the columns the cascade delete reads). -/
structure MessageRec where
  id : Nat
  chat_id : Nat
deriving DecidableEq, Repr

/-- models/user_permission.py UserPermission row (capability flags elided:
the embedded operations only delete by user_id). -/
structure PermissionRec where
  id : Nat
  user_id : Nat
deriving DecidableEq, Repr

/-- models/tenant_registry.py TenantRegistry row. -/
structure RegistryRec where
  id : Nat
  client_id : Nat
  core_url : String
  is_active : Bool
  health_check_url : String
deriving DecidableEq, Repr

/-- The relational store: one list per table, in insertion order. -/
structure Store where
  orgs : List Org
  clients : List ClientRec
  users : List UserRec
  databases : List DbRec
  grants : List GrantRec
  chats : List ChatRec
  messages : List MessageRec
  permissions : List PermissionRec
  registry : List RegistryRec
deriving DecidableEq, Repr

/-- fastapi HTTPException(status_code, detail). -/
structure HErr where
  status : Nat
  detail : String
deriving DecidableEq, Repr

deriving instance DecidableEq for Except

/-- Auto-increment primary key: one more than the largest id in use. -/
def nextId (ids : List Nat) : Nat := ids.foldr max 0 + 1

/-- Mutate the first element satisfying p (an ORM update of the row found
first by a query). -/
def replaceFirstP (p : α → Bool) (f : α → α) : List α → List α
  | [] => []
  | x :: xs => if p x then f x :: xs else x :: replaceFirstP p f xs

/-- core/security.py hash_password. Credential hashing is an excluded
external collaborator (bcrypt); modelled as an abstract tagging function.
No claim inspects hash values. -/
def hash_password (p : String) : String := "bcrypt$" ++ p

/-- routes/admin.py UserCreateRequest pydantic schema. -/
structure UserCreateRequest where
  username : String
  password : String
  email : Option String
  full_name : Option String
  role : String
  is_active : Bool
  client_id : Option Nat
  organization_id : Option Nat
deriving DecidableEq, Repr

/-- routes/admin.py OrganizationCreate pydantic schema. -/
structure OrganizationCreate where
  name : String
  description : Option String
  is_root : Bool
deriving DecidableEq, Repr

/-- routes/admin.py DatabaseCreate pydantic schema. -/
structure DatabaseCreate where
  name : String
  description : Option String
  client_id : Nat
deriving DecidableEq, Repr

/-- schemas/database_access.py DatabaseAccessCreate pydantic schema. -/
structure DatabaseAccessCreate where
  user_id : Nat
  database_id : Nat
  can_read : Bool
  can_write : Bool
deriving DecidableEq, Repr

/-- routes/admin.py create_user role validation: UserRole[data.role] looks an
enum member up by name; KeyError becomes none. -/
def parseRole : String → Option Role
  | "super_admin" => some Role.super_admin
  | "admin" => some Role.admin
  | "user" => some Role.user
  | _ => none

/-- routes/admin.py list_users. First the inactivity sweep deactivates (and
commits) every active user whose last_login is older than 30 minutes, then
super_admin sees all users while an admin sees only its own client's users
(403 when the admin has no client). A user with NULL last_login is not
swept (SQL NULL comparison). The order_by(id) of the source only orders the
response and is elided. The returned store reflects the sweep commit even
when the 403 is raised afterwards. -/
def list_users (caller : UserRec) (now : Nat) (s : Store) :
    Store × Except HErr (List UserRec) :=
  let cutoff := now - 1800
  let swept := s.users.map (fun u =>
    if u.is_active && (match u.last_login with
                       | some t => decide (t < cutoff)
                       | none => false) then
      { u with is_active := false }
    else u)
  let s1 := { s with users := swept }
  if caller.role == Role.super_admin then
    (s1, .ok s1.users)
  else if !truthy caller.client_id then
    (s1, .error ⟨403, "Admin must be assigned to a client"⟩)
  else
    (s1, .ok (s1.users.filter (fun u => u.client_id == caller.client_id)))

/-- routes/admin.py create_user. Checks in source order: username taken,
email taken, role name valid, then the admin branch forces the caller's own
client (403 when the admin has no client) while the super_admin branch takes
the requested client (404 when a truthy client_id does not exist, default
organization 1 otherwise). -/
def create_user (caller : UserRec) (data : UserCreateRequest) (s : Store) :
    Store × Except HErr UserRec :=
  if (s.users.find? (fun u => u.username == data.username)).isSome then
    (s, .error ⟨400, "Username already exists"⟩)
  else if truthyS data.email &&
      (s.users.find? (fun u => u.email == data.email)).isSome then
    (s, .error ⟨400, "Email already exists"⟩)
  else
    match parseRole data.role with
    | none => (s, .error ⟨400, "Invalid role"⟩)
    | some role =>
      let scope : Except HErr (Option Nat × Option Nat) :=
        if caller.role == Role.admin then
          if !truthy caller.client_id then
            .error ⟨403, "Admin must be assigned to a client"⟩
          else
            .ok (caller.client_id, caller.organization_id)
        else
          let organization_id :=
            if truthy data.organization_id then data.organization_id else some 1
          if truthy data.client_id then
            match s.clients.find? (fun c => some c.id == data.client_id) with
            | none => .error ⟨404, "Client not found"⟩
            | some client => .ok (data.client_id, some client.organization_id)
          else
            .ok (data.client_id, organization_id)
      match scope with
      | .error e => (s, .error e)
      | .ok (client_id, organization_id) =>
        let new_user : UserRec :=
          { id := nextId (s.users.map (fun u => u.id))
            username := data.username
            email := data.email
            full_name := data.full_name
            password_hash := hash_password data.password
            role := role
            is_active := data.is_active
            client_id := client_id
            organization_id := organization_id
            last_login := none }
        ({ s with users := s.users ++ [new_user] }, .ok new_user)

/-- routes/admin.py delete_user. Checks in source order: target exists, an
admin may only touch its own client, super_admin targets are protected, and
targets inside a root organization are protected; then the cascade removes
the target's messages, chats and permission rows and the user itself. -/
def delete_user (caller : UserRec) (user_id : Nat) (s : Store) :
    Store × Except HErr Nat :=
  match s.users.find? (fun u => u.id == user_id) with
  | none => (s, .error ⟨404, "User not found"⟩)
  | some target =>
    if caller.role == Role.admin && target.client_id != caller.client_id then
      (s, .error ⟨403, "You can only delete users from your client"⟩)
    else if target.role == Role.super_admin then
      (s, .error ⟨403, "Cannot delete super admin users"⟩)
    else if truthy target.organization_id &&
        (match s.orgs.find? (fun o => some o.id == target.organization_id) with
         | some org => org.is_root
         | none => false) then
      (s, .error ⟨403, "Cannot delete users from root organization"⟩)
    else
      let chatIds := (s.chats.filter (fun c => c.user_id == user_id)).map (fun c => c.id)
      let s' : Store :=
        { s with
          messages := s.messages.filter (fun m => !chatIds.contains m.chat_id)
          chats := s.chats.filter (fun c => !(c.user_id == user_id))
          permissions := s.permissions.filter (fun p => !(p.user_id == user_id))
          users := s.users.eraseP (fun u => u.id == user_id) }
      (s', .ok user_id)

/-- routes/admin.py update_user. Checks in source order: target exists, an
admin may only touch its own client, only a super_admin may edit a
super_admin, username/email uniqueness, role name valid, only a super_admin
may assign the super_admin role; then the fields are updated (password only
when truthy) and only a super_admin may move the user to another (existing)
client. -/
def update_user (caller : UserRec) (user_id : Nat) (data : UserCreateRequest)
    (s : Store) : Store × Except HErr UserRec :=
  match s.users.find? (fun u => u.id == user_id) with
  | none => (s, .error ⟨404, "User not found"⟩)
  | some target =>
    if caller.role == Role.admin && target.client_id != caller.client_id then
      (s, .error ⟨403, "You can only update users from your client"⟩)
    else if target.role == Role.super_admin && caller.role != Role.super_admin then
      (s, .error ⟨403, "Only super_admin can update super_admin users"⟩)
    else if data.username != target.username &&
        (s.users.find? (fun u => u.username == data.username && u.id != user_id)).isSome then
      (s, .error ⟨400, "Username already exists"⟩)
    else if truthyS data.email && data.email != target.email &&
        (s.users.find? (fun u => u.email == data.email && u.id != user_id)).isSome then
      (s, .error ⟨400, "Email already exists"⟩)
    else
      match parseRole data.role with
      | none => (s, .error ⟨400, "Invalid role"⟩)
      | some new_role =>
        if new_role == Role.super_admin && caller.role != Role.super_admin then
          (s, .error ⟨403, "Only super_admin can promote users to super_admin"⟩)
        else
          let t1 : UserRec :=
            { target with
              username := data.username
              email := data.email
              full_name := data.full_name
              role := new_role
              is_active := data.is_active
              password_hash :=
                if data.password != "" then hash_password data.password
                else target.password_hash }
          if caller.role == Role.super_admin && truthy data.client_id &&
              data.client_id != target.client_id then
            match s.clients.find? (fun c => some c.id == data.client_id) with
            | none => (s, .error ⟨404, "Client not found"⟩)
            | some client =>
              let t2 := { t1 with client_id := data.client_id
                                  organization_id := some client.organization_id }
              ({ s with users := replaceFirstP (fun u => u.id == user_id) (fun _ => t2) s.users },
               .ok t2)
          else
            ({ s with users := replaceFirstP (fun u => u.id == user_id) (fun _ => t1) s.users },
             .ok t1)

/-- routes/admin.py create_database. A super_admin targets any client, an
admin only its own (403 when it has no client); the client must exist, and
the redundant source check that an admin's resolved client is its own is
kept. -/
def create_database (caller : UserRec) (data : DatabaseCreate) (s : Store) :
    Store × Except HErr DbRec :=
  let scope : Except HErr Nat :=
    if caller.role == Role.super_admin then .ok data.client_id
    else if !truthy caller.client_id then
      .error ⟨403, "Admin must be assigned to a client"⟩
    else .ok (caller.client_id.getD 0)
  match scope with
  | .error e => (s, .error e)
  | .ok client_id =>
    if (s.clients.find? (fun c => c.id == client_id)).isNone then
      (s, .error ⟨404, "Client not found"⟩)
    else if caller.role == Role.admin && some client_id != caller.client_id then
      (s, .error ⟨403, "You can only add databases to your own client"⟩)
    else
      let new_db : DbRec :=
        { id := nextId (s.databases.map (fun d => d.id))
          name := data.name
          description := data.description
          client_id := client_id }
      ({ s with databases := s.databases ++ [new_db] }, .ok new_db)

/-- routes/admin.py create_database_access. Checks in source order: user and
database exist, a non-super_admin caller must have a client and both target
user and target database must belong to it, the user and the database must
share a client, and the (user, database) pair must not already have a
grant. -/
def create_database_access (caller : UserRec) (data : DatabaseAccessCreate)
    (s : Store) : Store × Except HErr GrantRec :=
  match s.users.find? (fun u => u.id == data.user_id) with
  | none => (s, .error ⟨404, "User not found"⟩)
  | some target_user =>
    match s.databases.find? (fun d => d.id == data.database_id) with
    | none => (s, .error ⟨404, "Database not found"⟩)
    | some target_db =>
      if caller.role != Role.super_admin && !truthy caller.client_id then
        (s, .error ⟨403, "Admin must be assigned to a client"⟩)
      else if caller.role != Role.super_admin &&
          target_user.client_id != caller.client_id then
        (s, .error ⟨403, "Cannot manage users from other clients"⟩)
      else if caller.role != Role.super_admin &&
          some target_db.client_id != caller.client_id then
        (s, .error ⟨403, "Cannot manage databases from other clients"⟩)
      else if target_user.client_id != some target_db.client_id then
        (s, .error ⟨400, "User and database belong to different clients"⟩)
      else if (s.grants.find? (fun g =>
          g.user_id == data.user_id && g.database_id == data.database_id)).isSome then
        (s, .error ⟨400, "Access already exists"⟩)
      else
        let access : GrantRec :=
          { id := nextId (s.grants.map (fun g => g.id))
            user_id := data.user_id
            database_id := data.database_id
            can_read := data.can_read
            can_write := data.can_write
            created_by := some caller.id }
        ({ s with grants := s.grants ++ [access] }, .ok access)

/-- routes/admin.py create_organization (route restricted to super_admin by
require_role; the body itself takes no caller). Rejects a duplicate name and
otherwise inserts, with whatever is_root flag was requested. -/
def create_organization (data : OrganizationCreate) (s : Store) :
    Store × Except HErr Org :=
  if (s.orgs.find? (fun o => o.name == data.name)).isSome then
    (s, .error ⟨400, "Organization with this name already exists"⟩)
  else
    let org : Org :=
      { id := nextId (s.orgs.map (fun o => o.id))
        name := data.name
        description := data.description
        is_root := data.is_root }
    ({ s with orgs := s.orgs ++ [org] }, .ok org)

/-- routes/admin.py update_organization (route restricted to super_admin).
Checks in source order: target exists, new name unique, and the root flag
may not be removed from a root organization; then the row is updated with
the requested fields, including the requested is_root flag. -/
def update_organization (org_id : Nat) (data : OrganizationCreate) (s : Store) :
    Store × Except HErr Org :=
  match s.orgs.find? (fun o => o.id == org_id) with
  | none => (s, .error ⟨404, "Organization not found"⟩)
  | some org =>
    if data.name != org.name &&
        (s.orgs.find? (fun o => o.name == data.name && o.id != org_id)).isSome then
      (s, .error ⟨400, "Organization with this name already exists"⟩)
    else if org.is_root && !data.is_root then
      (s, .error ⟨403, "Cannot remove root status from root organization"⟩)
    else
      let o2 : Org := { org with name := data.name
                                 description := data.description
                                 is_root := data.is_root }
      ({ s with orgs := replaceFirstP (fun o => o.id == org_id) (fun _ => o2) s.orgs },
       .ok o2)

/-- routes/admin.py delete_organization (route restricted to super_admin).
Checks in source order: target exists, the root organization may not be
deleted, and an organization with clients may not be deleted. -/
def delete_organization (org_id : Nat) (s : Store) : Store × Except HErr String :=
  match s.orgs.find? (fun o => o.id == org_id) with
  | none => (s, .error ⟨404, "Organization not found"⟩)
  | some org =>
    if org.is_root then
      (s, .error ⟨403, "Cannot delete root organization"⟩)
    else if 0 < (s.clients.filter (fun c => c.organization_id == org_id)).length then
      (s, .error ⟨400, "Cannot delete organization with clients"⟩)
    else
      ({ s with orgs := s.orgs.eraseP (fun o => o.id == org_id) }, .ok org.name)

/-- models/access_audit.py AccessAudit row (created_at as Nat seconds). -/
structure AccessRec where
  id : Nat
  actor_user_id : Option Nat
  actor_role : Option String
  admin_token : Option String
  action : String
  target_type : Option String
  target_id : Option Nat
  details : Option String
  success : Bool
  created_at : Nat
deriving DecidableEq, Repr

/-- core/audit.py log_access dedup lookup, identity/action/target part of the
filter (the created_at window is applied alongside): by user id when
present, else by admin-token value, then equality on action, target_type and
target_id (None matching None). -/
def accessMatches (r : AccessRec) (actor_user_id : Option Nat)
    (admin_token_val : Option String) (action : String)
    (target_type : Option String) (target_id : Option Nat) : Bool :=
  (match actor_user_id with
   | some _ => r.actor_user_id == actor_user_id
   | none => r.admin_token == admin_token_val)
  && r.action == action
  && r.target_type == target_type
  && r.target_id == target_id

/-- order_by(created_at.desc()).first(): the row with the greatest
created_at (ties broken towards the front of the list; the source's tie
order is database-dependent and no claim depends on it). -/
def latestBy : List AccessRec → Option AccessRec
  | [] => none
  | r :: rs =>
    match latestBy rs with
    | none => some r
    | some r2 => if r2.created_at > r.created_at then some r2 else some r

/-- core/audit.py log_access, dedup block (lines guarded by
"if dedupe_seconds and dedupe_seconds > 0"): when the window is truthy and
positive and an actor identity exists (q is not None), the most recent row
within the window matching identity, action and target is returned. -/
def dedupLookup (store : List AccessRec) (now : Nat)
    (actor_user_id : Option Nat) (admin_token_val : Option String)
    (action : String) (target_type : Option String) (target_id : Option Nat)
    (dedupe_seconds : Option Nat) : Option AccessRec :=
  match dedupe_seconds with
  | some d =>
    if d > 0 then
      match actor_user_id, admin_token_val with
      | none, none => none
      | _, _ =>
        let cutoff := now - d
        latestBy (store.filter (fun r =>
          decide (cutoff ≤ r.created_at) &&
          accessMatches r actor_user_id admin_token_val action target_type target_id))
    else none
  | none => none

/-- core/audit.py log_access. The duck-typed actor extraction of the source
is the identity on these already-extracted parameters (actor_user_id,
actor_role_val, admin_token_val, details_text). A dedup hit is returned
instead of inserting. Otherwise a fresh row is built and committed;
commit_fails models a store failure at that commit, in which case the
rollback is swallowed and the unsaved row object is still returned.
Returns (store after the call, returned AccessAudit object). -/
def log_access (store : List AccessRec) (now : Nat)
    (actor_user_id : Option Nat) (actor_role_val : Option String)
    (admin_token_val : Option String) (action : String)
    (target_type : Option String) (target_id : Option Nat)
    (details_text : Option String) (success : Bool)
    (dedupe_seconds : Option Nat) (commit_fails : Bool) :
    List AccessRec × AccessRec :=
  match dedupLookup store now actor_user_id admin_token_val action target_type
      target_id dedupe_seconds with
  | some existing => (store, existing)
  | none =>
    let newRec : AccessRec :=
      { id := nextId (store.map (fun r => r.id))
        actor_user_id := actor_user_id
        actor_role := actor_role_val
        admin_token := admin_token_val
        action := action
        target_type := target_type
        target_id := target_id
        details := details_text
        success := success
        created_at := now }
    if commit_fails then (store, newRec)
    else (store ++ [newRec], newRec)

/-- Python str.lower(), applied per character of the sequence. -/
def lower (s : String) : String := ⟨s.data.map Char.toLower⟩

/-- Python slice s[:n], a prefix of the character sequence. -/
def strTake (s : String) (n : Nat) : String := ⟨s.data.take n⟩

/-- core/core_resolver.py CoreResolver.get_core_url. The client is matched
by case-insensitive name (ilike with no wildcard), then its active registry
row supplies the backend URL. -/
def get_core_url (tenant_id : String) (s : Store) : Except HErr String :=
  match s.clients.find? (fun c => lower c.name == lower tenant_id) with
  | none => .error ⟨404, "Tenant not found"⟩
  | some client =>
    match s.registry.find? (fun r => r.client_id == client.id && r.is_active) with
    | none => .error ⟨503, "No active Core service configured"⟩
    | some reg => .ok reg.core_url

/-- core/core_resolver.py CoreResolver.check_core_health. The bounded GET on
core_url/health is modelled by its outcome: some status code, or none when
the transport raised; the source catches every exception and returns a
boolean, true exactly for a 200. -/
def check_core_health (health_response : Option Nat) : Bool :=
  match health_response with
  | some code => code == 200
  | none => false

/-- schemas/sql_proxy.py SQLGenerateRequest. -/
structure SQLGenerateRequest where
  tenant_id : String
  database_name : String
  prompt : String
  core_token : String
  chat_id : Option String
deriving DecidableEq, Repr

/-- The details dict passed to log_unified on the success path of
generate_sql. -/
structure AuditDetails where
  prompt : String
  sql_generated : Option String
deriving DecidableEq, Repr

/-- models/audit_log.py AuditLog row, restricted to the fields generate_sql
writes (duration, ip and user-agent metadata elided; created_at elided). -/
structure AuditRec where
  user_id : Option Nat
  user_role : Option String
  action : String
  request_type : String
  status : String
  tenant_id : Option String
  database_name : Option String
  error_message : Option String
  details : Option AuditDetails
deriving DecidableEq, Repr

/-- Python dict read: body.get(k). -/
def getField (k : String) (body : List (String × String)) : Option String :=
  (body.find? (fun kv => kv.fst == k)).map (fun kv => kv.snd)

/-- Python dict write: body[k] = v (overwrite the binding in place when the
key is present, else append it). -/
def setField (k v : String) : List (String × String) → List (String × String)
  | [] => [(k, v)]
  | kv :: rest => if kv.fst == k then (k, v) :: rest else kv :: setField k v rest

/-- The user_role value generate_sql extracts from the principal:
user.role.value, the enum member's string name. -/
def roleName : Role → String
  | Role.super_admin => "super_admin"
  | Role.admin => "admin"
  | Role.user => "user"

/-- routes/sql_proxy.py check_database_access: super_admin bypasses; else
the database must exist by name and the caller must hold a can_read grant
on it. -/
def check_database_access (role : Role) (user_id : Nat) (database_name : String)
    (s : Store) : Except HErr Unit :=
  if role == Role.super_admin then .ok ()
  else
    match s.databases.find? (fun d => d.name == database_name) with
    | none => .error ⟨404, "Database not found"⟩
    | some db_record =>
      match s.grants.find? (fun a =>
          a.user_id == user_id && a.database_id == db_record.id && a.can_read) with
      | none => .error ⟨403, "No access to database"⟩
      | some _ => .ok ()

/-- The backend round trip of generate_sql, modelled by its outcome:
error msg for a raised transport exception, otherwise the status code and
the body, where the body is error msg when response.json() raises and
otherwise the parsed JSON object as a string-keyed association list. -/
abbrev CoreWorld := Except String (Nat × Except String (List (String × String)))

/-- routes/sql_proxy.py generate_sql, after authentication. Returns the
response (or raised HTTPException) together with the list of unified audit
rows written during the call, in order. HTTPExceptions raised by the access
check or the tenant resolution are re-raised by the bare
except-HTTPException handler without any audit write; a non-200 backend
status writes one error row then raises 502; a transport or JSON exception
writes one error row then raises 500; a 200 response gets the link field
attached and writes one success row with truncated prompt and sql
previews. log_unified itself never raises (its failure path returns None);
the audit write is modelled as succeeding. -/
def generate_sql (caller_role : Role) (caller_id : Nat)
    (req : SQLGenerateRequest) (world : CoreWorld) (s : Store) :
    Except HErr (List (String × String)) × List AuditRec :=
  let roleStr : Option String := some (roleName caller_role)
  let errAudit : String → AuditRec := fun msg =>
    { user_id := some caller_id
      user_role := roleStr
      action := "sql_generate"
      request_type := "sql_proxy"
      status := "error"
      tenant_id := some req.tenant_id
      database_name := some req.database_name
      error_message := some msg
      details := none }
  match check_database_access caller_role caller_id req.database_name s with
  | .error e => (.error e, [])
  | .ok _ =>
    match get_core_url req.tenant_id s with
    | .error e => (.error e, [])
    | .ok _core_url =>
      let client_link := "/" ++ lower req.tenant_id ++ "/chat/" ++ req.database_name
      match world with
      | .error msg =>
        (.error ⟨500, "Internal server error: " ++ msg⟩, [errAudit msg])
      | .ok (status_code, body?) =>
        if status_code != 200 then
          (.error ⟨502, "Core service error: " ++ toString status_code⟩,
           [errAudit ("Core returned " ++ toString status_code)])
        else
          match body? with
          | .error msg =>
            (.error ⟨500, "Internal server error: " ++ msg⟩, [errAudit msg])
          | .ok body =>
            let result := setField "link" client_link body
            let okAudit : AuditRec :=
              { user_id := some caller_id
                user_role := roleStr
                action := "sql_generate"
                request_type := "sql_proxy"
                status := "success"
                tenant_id := some req.tenant_id
                database_name := some req.database_name
                error_message := none
                details := some
                  { prompt := strTake req.prompt 100
                    sql_generated :=
                      match getField "sql" result with
                      | some sqlv =>
                        if sqlv != "" then some (strTake sqlv 200) else none
                      | none => none } }
            (.ok result, [okAudit])

/-- The link field of a successful generate_sql response (none on error). -/
def linkOf : Except HErr (List (String × String)) → Option String
  | .ok body => getField "link" body
  | .error _ => none

/-!
Concrete fixtures used by counterexamples and witnesses.
-/

/-- The root organization of the fixtures. -/
def rootOrgF : Org := ⟨1, "Root", none, true⟩

/-- A plain (non-root) organization. -/
def plainOrgF : Org := ⟨2, "Plain", none, false⟩

/-- A client of the root organization, named Acme. -/
def acmeClient : ClientRec := ⟨1, "Acme", "ops@acme.example", 1⟩

/-- Client number 5, used by the admin-scope fixtures. -/
def clientFive : ClientRec := ⟨5, "Five", "it@five.example", 2⟩

/-- An admin assigned to client 5. -/
def adminFive : UserRec :=
  ⟨1, "boss", none, none, "bcrypt$x", Role.admin, true, some 5, some 2, none⟩

/-- An admin with a NULL client_id. -/
def adminNoClient : UserRec :=
  ⟨1, "adm0", none, none, "bcrypt$x", Role.admin, true, none, some 2, none⟩

/-- A super_admin caller. -/
def superF : UserRec :=
  ⟨9, "root", none, none, "bcrypt$x", Role.super_admin, true, none, some 1, none⟩

/-- A plain user of client 5. -/
def memberFive : UserRec :=
  ⟨2, "carol", none, none, "bcrypt$x", Role.user, true, some 5, some 2, none⟩

/-- A plain user with a NULL client_id in a non-root organization. -/
def bobNoClient : UserRec :=
  ⟨2, "bob", none, none, "bcrypt$x", Role.user, true, none, some 2, none⟩

/-- A plain user of client 5 inside the root organization. -/
def rootedUser : UserRec :=
  ⟨3, "dora", none, none, "bcrypt$x", Role.user, true, some 5, some 1, none⟩

/-- A database owned by client 5. -/
def dbFive : DbRec := ⟨4, "sales", none, 5⟩

/-- Store for the admin-scope fixtures: client 5 with its admin, a member,
a root-organization member and one database. -/
def storeFive : Store :=
  ⟨[rootOrgF, plainOrgF], [clientFive], [adminFive, memberFive, rootedUser],
   [dbFive], [], [], [], [], []⟩

/-- Store for the null-client-admin fixtures. -/
def storeNull : Store :=
  ⟨[rootOrgF, plainOrgF], [], [adminNoClient, bobNoClient], [], [], [], [], [], []⟩

/-- Store with only the root organization. -/
def storeRootOnly : Store := ⟨[rootOrgF], [], [], [], [], [], [], [], []⟩

/-- Store with tenant Acme but no registry row. -/
def storeNoReg : Store := ⟨[rootOrgF], [acmeClient], [], [], [], [], [], [], []⟩

/-- Store with tenant Acme and an active registry row. -/
def storeReg : Store :=
  ⟨[rootOrgF], [acmeClient], [], [], [], [], [], [],
   [⟨1, 1, "http://core.internal", true, "/health"⟩]⟩

/-- A dispatch request for tenant acme, database sales. -/
def reqAcmeSales : SQLGenerateRequest := ⟨"acme", "sales", "show me", "tok", none⟩

/-- A backend world answering 200 with a sql field. -/
def worldOk : CoreWorld := .ok (200, .ok [("sql", "SELECT 1")])

/-- A create_user request naming the super_admin role. -/
def superReq : UserCreateRequest :=
  ⟨"eve", "pw", none, none, "super_admin", true, none, some 1⟩

/-!
Helper lemmas.
-/

theorem le_foldr_max (x : Nat) (l : List Nat) (h : x ∈ l) : x ≤ l.foldr max 0 := by
  induction l with
  | nil => cases h
  | cons a t ih =>
    rcases List.mem_cons.mp h with rfl | hmem
    · exact Nat.le_max_left _ _
    · exact Nat.le_trans (ih hmem) (Nat.le_max_right _ _)

theorem nextId_not_mem (l : List Nat) : nextId l ∉ l := by
  intro h
  have := le_foldr_max _ l h
  simp only [nextId] at this
  omega

theorem find?_append_left {α : Type} {l₁ l₂ : List α} {q : α → Bool} {a : α}
    (h : l₁.find? q = some a) : (l₁ ++ l₂).find? q = some a := by
  rw [List.find?_append, h]
  rfl

theorem find?_eraseP_of {α : Type} (p q : α → Bool) (l : List α)
    (h : ∀ x, p x = true → q x = false) :
    (l.eraseP p).find? q = l.find? q := by
  induction l with
  | nil => rfl
  | cons a t ih =>
    simp only [List.eraseP_cons]
    cases hp : p a with
    | true => simp only [cond_true, List.find?_cons, h a hp]
    | false =>
      simp only [cond_false, List.find?_cons]
      cases hq : q a
      · exact ih
      · rfl

theorem find?_replaceFirstP_of {α : Type} (p q : α → Bool) (f : α → α) (l : List α)
    (h : ∀ x, p x = true → (q (f x) = false ∧ q x = false)) :
    (replaceFirstP p f l).find? q = l.find? q := by
  induction l with
  | nil => rfl
  | cons a t ih =>
    cases hp : p a with
    | true =>
      simp only [replaceFirstP, hp, if_true, List.find?_cons, (h a hp).1, (h a hp).2]
    | false =>
      simp only [replaceFirstP, hp, Bool.false_eq_true, if_false, List.find?_cons]
      cases hq : q a
      · exact ih
      · rfl

theorem find?_replaceFirstP_self {α : Type} (q : α → Bool) (f : α → α) (l : List α)
    (h : ∀ x, q x = true → q (f x) = true) :
    (replaceFirstP q f l).find? q = (l.find? q).map f := by
  induction l with
  | nil => rfl
  | cons a t ih =>
    cases hq : q a with
    | true =>
      simp only [replaceFirstP, hq, if_true, List.find?_cons, h a hq]
      rfl
    | false =>
      simp only [replaceFirstP, hq, Bool.false_eq_true, if_false, List.find?_cons]
      exact ih

theorem getField_setField_self (k v : String) (body : List (String × String)) :
    getField k (setField k v body) = some v := by
  induction body with
  | nil => simp [setField, getField]
  | cons kv rest ih =>
    cases hk : (kv.fst == k) with
    | true => simp [setField, hk, getField]
    | false =>
      simp only [setField, hk, Bool.false_eq_true, if_false]
      simp only [getField, List.find?_cons, hk] at ih ⊢
      exact ih

theorem getField_setField_other (k k' v : String) (body : List (String × String))
    (hne : (k' == k) = false) :
    getField k (setField k' v body) = getField k body := by
  induction body with
  | nil =>
    simp only [setField, getField, List.find?_cons, List.find?_nil]
    rw [show ((k', v).fst == k) = false from hne]
  | cons kv rest ih =>
    cases hk : (kv.fst == k') with
    | true =>
      simp only [setField, hk, if_true]
      simp only [getField, List.find?_cons]
      rw [show ((k', v).fst == k) = false from hne]
      have h1 : kv.fst = k' := by simpa using hk
      rw [show (kv.fst == k) = false by rw [h1]; exact hne]
    | false =>
      simp only [setField, hk, Bool.false_eq_true, if_false]
      simp only [getField, List.find?_cons] at ih ⊢
      cases hkk : (kv.fst == k)
      · exact ih
      · rfl

/-!
Claim theorems.
-/

/-- C8: check_core_health is a total boolean function of the health-check
outcome, returning true exactly when the GET completed with status 200 and
false on any non-200 response or transport error (modelled as none);
totality — no exception escapes — holds by construction of the embedding,
mirroring the except-all handler of the source. -/
theorem check_core_health_iff_200 :
    ∀ health_response : Option Nat,
      (check_core_health health_response = true ↔ health_response = some 200) := by
  intro r
  cases r with
  | none => simp [check_core_health]
  | some code => simp [check_core_health]

/-- C2 (code bug): evaluating create_user at the failing input — an admin
caller assigned to client 5 submitting a request whose role field names
super_admin — the operation succeeds and persists a user whose role is
super_admin, instead of rejecting the request before any write. -/
theorem create_user_admin_creates_super_admin :
    (create_user adminFive superReq storeFive).2
      = .ok ⟨4, "eve", none, none, "bcrypt$pw", Role.super_admin, true, some 5,
             some 2, none⟩
    ∧ ∃ u ∈ (create_user adminFive superReq storeFive).1.users,
        u.role = Role.super_admin ∧ u.username = "eve" := by
  decide

/-- C3 counterexample: an admin whose client_id is NULL calls delete_user on
a user whose client_id is also NULL; instead of failing with a "not assigned
to a client" condition and performing no write, the operation succeeds and
deletes the user. -/
theorem null_client_admin_delete_writes :
    (delete_user adminNoClient 2 storeNull).2 = .ok 2
    ∧ (delete_user adminNoClient 2 storeNull).1.users = [adminNoClient]
    ∧ (delete_user adminNoClient 2 storeNull).1 ≠ storeNull := by
  decide

/-- C4 counterexample: dispatching for tenant acme, which exists but has no
active TenantRegistry row, yields the 503 outcome but writes zero unified
audit records — not exactly one error record as claimed — because the
HTTPException raised by the resolver is re-raised before any audit call. -/
theorem dispatch_no_registry_zero_audit_rows :
    (generate_sql Role.super_admin 1 reqAcmeSales worldOk storeNoReg).1
      = .error ⟨503, "No active Core service configured"⟩
    ∧ ((generate_sql Role.super_admin 1 reqAcmeSales worldOk storeNoReg).2.filter
        (fun a => a.status == "error")).length = 0
    ∧ ¬ ((generate_sql Role.super_admin 1 reqAcmeSales worldOk storeNoReg).2.filter
        (fun a => a.status == "error")).length = 1 := by
  decide

/-- C5 counterexample: with the backend answering 200 and a sql field for
tenant acme and database sales, the returned link field is
"/acme/chat/sales" — without the trailing slash the claim states (the
trailing slash is appended only to the forwarded URL). -/
theorem dispatch_link_no_trailing_slash :
    linkOf (generate_sql Role.super_admin 1 reqAcmeSales worldOk storeReg).1
      = some "/acme/chat/sales"
    ∧ ¬ linkOf (generate_sql Role.super_admin 1 reqAcmeSales worldOk storeReg).1
      = some "/acme/chat/sales/" := by
  decide

/-- C7 counterexample: starting from a store whose only organization is the
root, create_organization accepts a request with is_root set and inserts a
second root organization — the administrative mutations do not preserve
"exactly one root organization". -/
theorem second_root_organization_created :
    (create_organization ⟨"Second", none, true⟩ storeRootOnly).2
      = .ok ⟨2, "Second", none, true⟩
    ∧ ((create_organization ⟨"Second", none, true⟩ storeRootOnly).1.orgs.filter
        (fun o => o.is_root)).length = 2 := by
  decide

/-- C1: every administrative operation of an admin assigned to client c is
confined to that client: list_users only returns users of client c,
delete_user only succeeds when the target belongs to client c, and
create_database_access only succeeds when both the target user and the
target database belong to client c; other clients' targets are rejected or
excluded from the listing. -/
theorem admin_operations_confined_to_own_client
    (caller : UserRec) (c : Nat)
    (hrole : caller.role = Role.admin)
    (hcid : caller.client_id = some c) (hc : c ≠ 0) :
    (∀ now s s' out, list_users caller now s = (s', .ok out) →
        ∀ u ∈ out, u.client_id = some c)
    ∧ (∀ uid s s' r, delete_user caller uid s = (s', .ok r) →
        ∃ t, s.users.find? (fun u => u.id == uid) = some t ∧ t.client_id = some c)
    ∧ (∀ data s s' g, create_database_access caller data s = (s', .ok g) →
        ∃ tu td, s.users.find? (fun u => u.id == data.user_id) = some tu
          ∧ s.databases.find? (fun d => d.id == data.database_id) = some td
          ∧ tu.client_id = some c ∧ td.client_id = c) := by
  have hsup : (caller.role == Role.super_admin) = false := by
    simp [hrole]
  have hadm : (caller.role == Role.admin) = true := by
    simp [hrole]
  have htru : truthy caller.client_id = true := by
    simp [hcid, truthy, hc]
  refine ⟨?_, ?_, ?_⟩
  · intro now s s' out h
    unfold list_users at h
    simp only [hsup, htru, Bool.not_true, Bool.false_eq_true, if_false,
      Prod.mk.injEq, Except.ok.injEq] at h
    intro u hu
    have hmem := h.2 ▸ hu
    have := (List.mem_filter.mp hmem).2
    rw [hcid] at this
    exact beq_iff_eq.mp this
  · intro uid s s' r h
    unfold delete_user at h
    cases hfind : s.users.find? (fun u => u.id == uid) with
    | none => rw [hfind] at h; simp at h
    | some t =>
      rw [hfind] at h
      dsimp only at h
      refine ⟨t, rfl, ?_⟩
      cases hg1 : (caller.role == Role.admin && t.client_id != caller.client_id) with
      | true => rw [hg1] at h; simp at h
      | false =>
        simp only [hrole] at hg1
        simp at hg1
        rw [hg1, hcid]
  · intro data s s' g h
    unfold create_database_access at h
    cases hfu : s.users.find? (fun u => u.id == data.user_id) with
    | none => rw [hfu] at h; simp at h
    | some tu =>
      rw [hfu] at h
      cases hfd : s.databases.find? (fun d => d.id == data.database_id) with
      | none => rw [hfd] at h; simp at h
      | some td =>
        rw [hfd] at h
        dsimp only at h
        have hns : (caller.role != Role.super_admin) = true := by
          simp [hrole]
        have key : tu.client_id = some c ∧ td.client_id = c := by
          cases hg1 : (caller.role != Role.super_admin && !truthy caller.client_id) with
          | true => rw [hg1] at h; simp at h
          | false =>
            rw [hg1] at h
            cases hg2 : (caller.role != Role.super_admin && tu.client_id != caller.client_id) with
            | true => rw [hg2] at h; simp at h
            | false =>
              rw [hg2] at h
              cases hg3 : (caller.role != Role.super_admin &&
                  some td.client_id != caller.client_id) with
              | true => rw [hg3] at h; simp at h
              | false =>
                simp only [hns, Bool.true_and] at hg2 hg3
                simp at hg2 hg3
                refine ⟨by rw [hg2, hcid], ?_⟩
                rw [hcid] at hg3
                exact Option.some.inj hg3
        exact ⟨tu, td, rfl, rfl, key.1, key.2⟩

/-- Witness for C1: the admin of client 5 listing users over the fixture
store sees only client-5 users; in particular the listed member belongs to
client 5. -/
theorem admin_operations_confined_witness :
    memberFive.client_id = some 5 := by
  have H := (admin_operations_confined_to_own_client adminFive 5 (by decide)
    (by decide) (by decide)).1
  exact H 0 storeFive storeFive [adminFive, memberFive, rootedUser] (by decide)
    memberFive (by decide)

/-- C9: delete_user rejects with a 403 forbidden outcome, and without any
write, every existing target user whose organization is the root
organization — whatever the caller's role, super_admin included — and the
not-found check, the admin client-scope check and the super_admin-target
check all run before the root-organization check, as witnessed by which
error message is produced in each configuration. -/
theorem delete_user_root_org_protected (caller : UserRec) (uid : Nat) (s : Store) :
    (s.users.find? (fun u => u.id == uid) = none →
      delete_user caller uid s = (s, .error ⟨404, "User not found"⟩))
    ∧ (∀ t oid org,
        s.users.find? (fun u => u.id == uid) = some t →
        t.organization_id = some oid → oid ≠ 0 →
        s.orgs.find? (fun o => some o.id == t.organization_id) = some org →
        org.is_root = true →
        (delete_user caller uid s).1 = s
        ∧ (∃ e, (delete_user caller uid s).2 = .error e ∧ e.status = 403)
        ∧ (caller.role = Role.admin → t.client_id ≠ caller.client_id →
            (delete_user caller uid s).2
              = .error ⟨403, "You can only delete users from your client"⟩)
        ∧ (¬(caller.role = Role.admin ∧ t.client_id ≠ caller.client_id) →
            t.role = Role.super_admin →
            (delete_user caller uid s).2
              = .error ⟨403, "Cannot delete super admin users"⟩)
        ∧ (¬(caller.role = Role.admin ∧ t.client_id ≠ caller.client_id) →
            t.role ≠ Role.super_admin →
            (delete_user caller uid s).2
              = .error ⟨403, "Cannot delete users from root organization"⟩)) := by
  constructor
  · intro hnone
    unfold delete_user
    rw [hnone]
  · intro t oid org hfind hoid hoid0 horg hroot
    have hguard3 : (truthy t.organization_id &&
        (match s.orgs.find? (fun o => some o.id == t.organization_id) with
         | some org => org.is_root
         | none => false)) = true := by
      rw [horg, hoid]
      simp [truthy, hoid0, hroot]
    have hg1iff : (caller.role == Role.admin && t.client_id != caller.client_id) = true
        ↔ (caller.role = Role.admin ∧ t.client_id ≠ caller.client_id) := by
      simp
    unfold delete_user
    rw [hfind]
    dsimp only
    cases hg1 : (caller.role == Role.admin && t.client_id != caller.client_id) with
    | true =>
      simp only [if_pos rfl]
      refine ⟨rfl, ⟨_, rfl, rfl⟩, fun _ _ => rfl, ?_, ?_⟩
      · intro hn _
        exact absurd (hg1iff.mp hg1) hn
      · intro hn _
        exact absurd (hg1iff.mp hg1) hn
    | false =>
      have hg1p : ¬(caller.role = Role.admin ∧ t.client_id ≠ caller.client_id) := by
        intro hp
        rw [hg1iff.mpr hp] at hg1
        exact Bool.true_eq_false.mp hg1
      simp only [Bool.false_eq_true, if_false]
      cases hg2 : (t.role == Role.super_admin) with
      | true =>
        have htr : t.role = Role.super_admin := by simpa using hg2
        simp only [if_pos rfl]
        refine ⟨rfl, ⟨_, rfl, rfl⟩, ?_, fun _ _ => rfl, ?_⟩
        · intro h1 h2
          exact absurd ⟨h1, h2⟩ hg1p
        · intro _ hn
          exact absurd htr hn
      | false =>
        have htr : ¬ t.role = Role.super_admin := by simpa using hg2
        simp only [Bool.false_eq_true, if_false, hguard3, if_pos rfl]
        refine ⟨rfl, ⟨_, rfl, rfl⟩, ?_, ?_, fun _ _ => rfl⟩
        · intro h1 h2
          exact absurd ⟨h1, h2⟩ hg1p
        · intro _ hn
          exact absurd hn htr

/-- Witness for C9: a super_admin caller attempting to delete the fixture
user living in the root organization is rejected with the root-organization
message and the store is unchanged. -/
theorem delete_user_root_org_protected_witness :
    (delete_user superF 3 storeFive).1 = storeFive
    ∧ (delete_user superF 3 storeFive).2
        = .error ⟨403, "Cannot delete users from root organization"⟩ := by
  have H := (delete_user_root_org_protected superF 3 storeFive).2 rootedUser 1 rootOrgF
    (by decide) (by decide) (by decide) (by decide) (by decide)
  exact ⟨H.1, H.2.2.2.2 (by decide) (by decide)⟩

/-- C3 (amended): for an admin whose client_id is NULL, the listing and
creating operations fail with the "Admin must be assigned to a client"
condition and perform no write (list_users may still commit its inactivity
sweep), but update_user and delete_user perform no such check: they reject
with the cross-client scope message whenever the target's client_id is
non-null, and delete_user proceeds to delete when the target's client_id is
also NULL (and the target is neither a super_admin nor in a root
organization). -/
theorem null_client_admin_scoped_operations (caller : UserRec)
    (hrole : caller.role = Role.admin) (hnone : caller.client_id = none) :
    (∀ now s, (list_users caller now s).2
        = .error ⟨403, "Admin must be assigned to a client"⟩)
    ∧ (∀ data s, (create_user caller data s).1 = s
        ∧ ∀ u, (create_user caller data s).2 ≠ .ok u)
    ∧ (∀ data s, create_database caller data s
        = (s, .error ⟨403, "Admin must be assigned to a client"⟩))
    ∧ (∀ data s, (create_database_access caller data s).1 = s
        ∧ ∀ g, (create_database_access caller data s).2 ≠ .ok g)
    ∧ (∀ uid s t, s.users.find? (fun u => u.id == uid) = some t →
        t.client_id ≠ none →
        (delete_user caller uid s).2
          = .error ⟨403, "You can only delete users from your client"⟩)
    ∧ (∀ uid data s t, s.users.find? (fun u => u.id == uid) = some t →
        t.client_id ≠ none →
        (update_user caller uid data s).2
          = .error ⟨403, "You can only update users from your client"⟩)
    ∧ (∀ uid s t, s.users.find? (fun u => u.id == uid) = some t →
        t.client_id = none → t.role ≠ Role.super_admin →
        (truthy t.organization_id &&
          (match s.orgs.find? (fun o => some o.id == t.organization_id) with
           | some org => org.is_root
           | none => false)) = false →
        (delete_user caller uid s).2 = .ok uid
        ∧ (delete_user caller uid s).1.users
            = s.users.eraseP (fun u => u.id == uid)) := by
  refine ⟨?_, ?_, ?_, ?_, ?_, ?_, ?_⟩
  · intro now s
    unfold list_users
    simp [hrole, hnone, truthy]
  · intro data s
    unfold create_user
    split
    · exact ⟨rfl, by simp⟩
    · split
      · exact ⟨rfl, by simp⟩
      · split
        · exact ⟨rfl, by simp⟩
        · simp [hrole, hnone, truthy]
  · intro data s
    unfold create_database
    simp [hrole, hnone, truthy]
  · intro data s
    unfold create_database_access
    split
    · exact ⟨rfl, by simp⟩
    · split
      · exact ⟨rfl, by simp⟩
      · simp [hrole, hnone, truthy]
  · intro uid s t hfind hne
    have hg : (caller.role == Role.admin && t.client_id != caller.client_id) = true := by
      rw [hrole, hnone]
      cases hcid : t.client_id with
      | none => exact absurd hcid hne
      | some x => simp
    unfold delete_user
    rw [hfind]
    dsimp only
    simp [hg]
  · intro uid data s t hfind hne
    have hg : (caller.role == Role.admin && t.client_id != caller.client_id) = true := by
      rw [hrole, hnone]
      cases hcid : t.client_id with
      | none => exact absurd hcid hne
      | some x => simp
    unfold update_user
    rw [hfind]
    dsimp only
    simp [hg]
  · intro uid s t hfind hnt hrt hguard3
    have hg1 : (caller.role == Role.admin && t.client_id != caller.client_id) = false := by
      rw [hnone, hnt]
      simp
    have hg2 : (t.role == Role.super_admin) = false := by
      simpa using hrt
    unfold delete_user
    rw [hfind]
    dsimp only
    rw [hg1, hg2, hguard3]
    simp

/-- Witness for C3: the NULL-client admin of the fixtures deletes the
NULL-client user bob, a write the claimed "not assigned to a client"
failure would have prevented. -/
theorem null_client_admin_scoped_operations_witness :
    (delete_user adminNoClient 2 storeNull).2 = .ok 2 := by
  have H := null_client_admin_scoped_operations adminNoClient (by decide) (by decide)
  exact (H.2.2.2.2.2.2 2 storeNull bobNoClient (by decide) (by decide) (by decide)
    (by decide)).1

/-- C7 (amended): an existing root organization can never be deleted or
stripped of its root flag — delete_organization rejects it with 403,
update_organization only ever leaves it with is_root still true, and each of
create_organization, update_organization and delete_organization preserves
the root row (same id, still root) in the resulting store; the
exactly-one-root part of the original claim is not enforced by the code,
which accepts further organizations with is_root set. -/
theorem root_organization_flag_preserved (s : Store) (oid : Nat) (o : Org)
    (hfind : s.orgs.find? (fun g => g.id == oid) = some o)
    (hroot : o.is_root = true) :
    (delete_organization oid s
        = (s, .error ⟨403, "Cannot delete root organization"⟩))
    ∧ (∀ data s' o2, update_organization oid data s = (s', .ok o2) →
        o2.is_root = true)
    ∧ (∀ data,
        ((create_organization data s).1.orgs.find? (fun g => g.id == oid)) = some o)
    ∧ (∀ oid' data, ∃ o2,
        ((update_organization oid' data s).1.orgs.find? (fun g => g.id == oid))
          = some o2
        ∧ o2.is_root = true)
    ∧ (∀ oid', ∃ o2,
        ((delete_organization oid' s).1.orgs.find? (fun g => g.id == oid)) = some o2
        ∧ o2.is_root = true) := by
  have hoid : o.id = oid := by simpa using List.find?_some hfind
  refine ⟨?_, ?_, ?_, ?_, ?_⟩
  · unfold delete_organization
    rw [hfind]
    dsimp only
    rw [hroot]
    simp
  · intro data s' o2 h
    unfold update_organization at h
    rw [hfind] at h
    dsimp only at h
    cases hname : (data.name != o.name &&
        (s.orgs.find? (fun g => g.name == data.name && g.id != oid)).isSome) with
    | true => rw [hname] at h; simp at h
    | false =>
      rw [hname] at h
      cases hclear : (o.is_root && !data.is_root) with
      | true => rw [hclear] at h; simp at h
      | false =>
        have hdr : data.is_root = true := by
          rw [hroot] at hclear
          simpa using hclear
        rw [hclear] at h
        simp only [Bool.false_eq_true, if_false, Prod.mk.injEq, Except.ok.injEq] at h
        rw [← h.2]
        exact hdr
  · intro data
    unfold create_organization
    cases hdup : (s.orgs.find? (fun g => g.name == data.name)).isSome with
    | true => simpa using hfind
    | false => exact find?_append_left hfind
  · intro oid' data
    unfold update_organization
    cases hf : s.orgs.find? (fun g => g.id == oid') with
    | none => exact ⟨o, hfind, hroot⟩
    | some org' =>
      dsimp only
      cases hname : (data.name != org'.name &&
          (s.orgs.find? (fun g => g.name == data.name && g.id != oid')).isSome) with
      | true => exact ⟨o, hfind, hroot⟩
      | false =>
        cases hclear : (org'.is_root && !data.is_root) with
        | true => exact ⟨o, hfind, hroot⟩
        | false =>
          simp only [Bool.false_eq_true, if_false]
          have hoid' : org'.id = oid' := by simpa using List.find?_some hf
          by_cases heq : oid' = oid
          · subst heq
            have horg : org' = o := by
              rw [hf] at hfind
              exact Option.some.inj hfind
            have hdr : data.is_root = true := by
              rw [horg, hroot] at hclear
              simpa using hclear
            refine ⟨{ id := org'.id, name := data.name, description := data.description,
                      is_root := data.is_root }, ?_, hdr⟩
            rw [find?_replaceFirstP_self (fun g => g.id == oid') _ s.orgs
              (fun x hx => by simp [hoid']), hf]
            rfl
          · refine ⟨o, ?_, hroot⟩
            rw [find?_replaceFirstP_of (fun g => g.id == oid') (fun g => g.id == oid)
              _ s.orgs ?_]
            · exact hfind
            · intro x hx
              have hx' : x.id = oid' := by simpa using hx
              constructor
              · simp [hoid', heq]
              · simp [hx', heq]
  · intro oid'
    unfold delete_organization
    cases hf : s.orgs.find? (fun g => g.id == oid') with
    | none => exact ⟨o, hfind, hroot⟩
    | some org' =>
      dsimp only
      cases hrt : org'.is_root with
      | true => exact ⟨o, hfind, hroot⟩
      | false =>
        simp only [Bool.false_eq_true, if_false]
        by_cases hcl : 0 < (s.clients.filter (fun c => c.organization_id == oid')).length
        · rw [if_pos hcl]
          exact ⟨o, hfind, hroot⟩
        · rw [if_neg hcl]
          have hne : oid' ≠ oid := by
            intro heq
            subst heq
            rw [hf] at hfind
            have : org' = o := Option.some.inj hfind
            rw [this, hroot] at hrt
            exact Bool.true_eq_false.mp hrt
          refine ⟨o, ?_, hroot⟩
          rw [find?_eraseP_of (fun g => g.id == oid') (fun g => g.id == oid) s.orgs ?_]
          · exact hfind
          · intro x hx
            have hx' : x.id = oid' := by simpa using hx
            simp [hx', hne]

/-- Witness for C7 (amended): deleting the fixture root organization is
rejected with the 403 root-protection message and the store is unchanged. -/
theorem root_organization_flag_preserved_witness :
    delete_organization 1 storeRootOnly
      = (storeRootOnly, .error ⟨403, "Cannot delete root organization"⟩) :=
  (root_organization_flag_preserved storeRootOnly 1 rootOrgF (by decide) (by decide)).1

/-- C4 (amended): when the access check passes, the tenant exists (a client
matches the name case-insensitively) but it has no active TenantRegistry
row, generate_sql surfaces the 503 UpstreamUnavailable outcome and writes
no unified audit record at all: the resolver's HTTPException is re-raised
by the bare except-HTTPException handler before any audit call. -/
theorem dispatch_no_registry_503_no_audit (role : Role) (uid : Nat)
    (req : SQLGenerateRequest) (world : CoreWorld) (s : Store) (client : ClientRec)
    (hacc : check_database_access role uid req.database_name s = .ok ())
    (hcl : s.clients.find? (fun c => lower c.name == lower req.tenant_id) = some client)
    (hreg : s.registry.find? (fun r => r.client_id == client.id && r.is_active) = none) :
    generate_sql role uid req world s
      = (.error ⟨503, "No active Core service configured"⟩, []) := by
  unfold generate_sql get_core_url
  rw [hacc, hcl]
  dsimp only
  rw [hreg]

/-- Witness for C4 (amended): dispatching for tenant acme over the fixture
store without a registry row returns the 503 outcome and an empty audit
list. -/
theorem dispatch_no_registry_503_no_audit_witness :
    generate_sql Role.super_admin 1 reqAcmeSales worldOk storeNoReg
      = (.error ⟨503, "No active Core service configured"⟩, []) :=
  dispatch_no_registry_503_no_audit Role.super_admin 1 reqAcmeSales worldOk
    storeNoReg acmeClient (by decide) (by decide) (by decide)

/-- C5 (amended): when the access check and tenant resolution succeed and
the backend answers 200 with a JSON body whose sql field is non-empty, the
result is the body with a link field equal to
"/" ++ lowercased tenant ++ "/chat/" ++ database name — with no trailing
slash; the trailing slash appears only on the forwarded URL — and exactly
one unified audit record is written, with status success and the sql
preview truncated to 200 characters. -/
theorem dispatch_success_link_and_audit (role : Role) (uid : Nat)
    (req : SQLGenerateRequest) (s : Store) (url : String)
    (body : List (String × String)) (sqlv : String)
    (hacc : check_database_access role uid req.database_name s = .ok ())
    (hurl : get_core_url req.tenant_id s = .ok url)
    (hsql : getField "sql" body = some sqlv) (hne : sqlv ≠ "") :
    generate_sql role uid req (.ok (200, .ok body)) s
      = (.ok (setField "link"
            ("/" ++ lower req.tenant_id ++ "/chat/" ++ req.database_name) body),
         [{ user_id := some uid
            user_role := some (roleName role)
            action := "sql_generate"
            request_type := "sql_proxy"
            status := "success"
            tenant_id := some req.tenant_id
            database_name := some req.database_name
            error_message := none
            details := some { prompt := strTake req.prompt 100
                              sql_generated := some (strTake sqlv 200) } }])
    ∧ getField "link" (setField "link"
          ("/" ++ lower req.tenant_id ++ "/chat/" ++ req.database_name) body)
        = some ("/" ++ lower req.tenant_id ++ "/chat/" ++ req.database_name) := by
  constructor
  · have hgf : getField "sql" (setField "link"
        ("/" ++ lower req.tenant_id ++ "/chat/" ++ req.database_name) body)
        = some sqlv := by
      rw [getField_setField_other _ _ _ _ (by decide)]
      exact hsql
    have hnb : (sqlv != "") = true := by simpa using hne
    unfold generate_sql
    rw [hacc, hurl]
    dsimp only
    rw [hgf]
    dsimp only
    rw [hnb]
    simp
  · exact getField_setField_self _ _ _

/-- Witness for C5 (amended): the concrete acme/sales dispatch with a 200
backend answer carries link "/acme/chat/sales". -/
theorem dispatch_success_link_and_audit_witness :
    linkOf (generate_sql Role.super_admin 1 reqAcmeSales
        (.ok (200, .ok [("sql", "SELECT 1")])) storeReg).1
      = some "/acme/chat/sales" := by
  have H := dispatch_success_link_and_audit Role.super_admin 1 reqAcmeSales storeReg
    "http://core.internal" [("sql", "SELECT 1")] "SELECT 1" (by decide) (by decide)
    (by decide) (by decide)
  rw [H.1]
  decide

theorem dedupLookup_eq_latest (store : List AccessRec) (now : Nat)
    (actor : Option Nat) (tok : Option String) (act : String)
    (tt : Option String) (tid : Option Nat) (d : Nat) (hd : 0 < d)
    (hident : actor ≠ none ∨ tok ≠ none) :
    dedupLookup store now actor tok act tt tid (some d)
      = latestBy (store.filter (fun r =>
          decide (now - d ≤ r.created_at)
          && accessMatches r actor tok act tt tid)) := by
  unfold dedupLookup
  dsimp only
  rw [if_pos hd]
  cases actor with
  | some a => rfl
  | none =>
    cases tok with
    | some t => rfl
    | none =>
      rcases hident with h | h <;> exact absurd rfl h

theorem log_access_of_lookup_none (store : List AccessRec) (now : Nat)
    (actor : Option Nat) (arole tok : Option String) (act : String)
    (tt : Option String) (tid : Option Nat) (det : Option String) (suc : Bool)
    (ds : Option Nat)
    (h : dedupLookup store now actor tok act tt tid ds = none) :
    log_access store now actor arole tok act tt tid det suc ds false
      = (store ++ [⟨nextId (store.map (fun r => r.id)), actor, arole, tok, act,
          tt, tid, det, suc, now⟩],
         ⟨nextId (store.map (fun r => r.id)), actor, arole, tok, act, tt, tid,
          det, suc, now⟩) := by
  unfold log_access
  rw [h]
  rfl

theorem log_access_of_lookup_some (store : List AccessRec) (now : Nat)
    (actor : Option Nat) (arole tok : Option String) (act : String)
    (tt : Option String) (tid : Option Nat) (det : Option String) (suc : Bool)
    (ds : Option Nat) (cf : Bool) (e : AccessRec)
    (h : dedupLookup store now actor tok act tt tid ds = some e) :
    log_access store now actor arole tok act tt tid det suc ds cf = (store, e) := by
  unfold log_access
  rw [h]

/-- C6: with a positive dedup window and an actor identity (user id if
present, else admin-token identity), a first recordAccess call that finds no
matching row inserts one, and a second call within the window with the same
identity, action and target returns exactly that stored row and performs no
second insert; with dedupe_seconds absent or 0, every call — over every
store, including one already holding an in-window matching row — inserts a
new row. -/
theorem log_access_dedupe_window (store : List AccessRec) (now1 now2 : Nat)
    (actor : Option Nat) (arole tok : Option String) (act : String)
    (tt : Option String) (tid : Option Nat) (det : Option String) (suc : Bool)
    (d : Nat) :
    (0 < d →
      (actor ≠ none ∨ tok ≠ none) →
      (∀ r ∈ store,
        ¬(now1 - d ≤ r.created_at ∧ accessMatches r actor tok act tt tid = true)) →
      now1 ≤ now2 → now2 ≤ now1 + d →
      ∀ store1 r1,
        log_access store now1 actor arole tok act tt tid det suc (some d) false
          = (store1, r1) →
        store1 = store ++ [r1]
        ∧ log_access store1 now2 actor arole tok act tt tid det suc (some d) false
            = (store1, r1))
    ∧ (∀ (store2 : List AccessRec) (now : Nat) (actor2 : Option Nat)
        (arole2 tok2 : Option String) (act2 : String) (tt2 : Option String)
        (tid2 : Option Nat) (det2 : Option String) (suc2 : Bool),
        (log_access store2 now actor2 arole2 tok2 act2 tt2 tid2 det2 suc2
            none false).1
          = store2 ++
            [(log_access store2 now actor2 arole2 tok2 act2 tt2 tid2 det2 suc2
                none false).2]
        ∧ (log_access store2 now actor2 arole2 tok2 act2 tt2 tid2 det2 suc2
            (some 0) false).1
          = store2 ++
            [(log_access store2 now actor2 arole2 tok2 act2 tt2 tid2 det2 suc2
                (some 0) false).2]) := by
  constructor
  · intro hd hident hfresh h12 h2w store1 r1 h
    have hfil1 : store.filter (fun r =>
        decide (now1 - d ≤ r.created_at)
        && accessMatches r actor tok act tt tid) = [] := by
      apply List.filter_eq_nil_iff.mpr
      intro r hr hcon
      rw [Bool.and_eq_true] at hcon
      exact hfresh r hr ⟨of_decide_eq_true hcon.1, hcon.2⟩
    have hlk1 : dedupLookup store now1 actor tok act tt tid (some d) = none := by
      rw [dedupLookup_eq_latest store now1 actor tok act tt tid d hd hident, hfil1]
      rfl
    have hA := log_access_of_lookup_none store now1 actor arole tok act tt tid det
      suc (some d) hlk1
    rw [hA] at h
    simp only [Prod.mk.injEq] at h
    obtain ⟨h1, h2⟩ := h
    subst h1
    subst h2
    refine ⟨rfl, ?_⟩
    have hfil2 : store.filter (fun r =>
        decide (now2 - d ≤ r.created_at)
        && accessMatches r actor tok act tt tid) = [] := by
      apply List.filter_eq_nil_iff.mpr
      intro r hr hcon
      rw [Bool.and_eq_true] at hcon
      have hle : now1 - d ≤ r.created_at :=
        Nat.le_trans (Nat.sub_le_sub_right h12 d) (of_decide_eq_true hcon.1)
      exact hfresh r hr ⟨hle, hcon.2⟩
    have hmatch : accessMatches
        ⟨nextId (store.map (fun r => r.id)), actor, arole, tok, act, tt, tid,
         det, suc, now1⟩ actor tok act tt tid = true := by
      cases actor <;> simp [accessMatches]
    have hc2 : now2 - d ≤ now1 := by omega
    have hfull : (store ++ [(⟨nextId (store.map (fun r => r.id)), actor, arole,
        tok, act, tt, tid, det, suc, now1⟩ : AccessRec)]).filter (fun r =>
          decide (now2 - d ≤ r.created_at)
          && accessMatches r actor tok act tt tid)
        = [⟨nextId (store.map (fun r => r.id)), actor, arole, tok, act, tt, tid,
            det, suc, now1⟩] := by
      rw [List.filter_append, hfil2]
      simp [hmatch, hc2, h2w]
    have hlk2 : dedupLookup (store ++ [(⟨nextId (store.map (fun r => r.id)),
        actor, arole, tok, act, tt, tid, det, suc, now1⟩ : AccessRec)]) now2 actor
        tok act tt tid (some d)
        = some ⟨nextId (store.map (fun r => r.id)), actor, arole, tok, act, tt,
            tid, det, suc, now1⟩ := by
      rw [dedupLookup_eq_latest _ now2 actor tok act tt tid d hd hident, hfull]
      rfl
    exact log_access_of_lookup_some _ now2 actor arole tok act tt tid det suc
      (some d) false _ hlk2
  · intro store2 now actor2 arole2 tok2 act2 tt2 tid2 det2 suc2
    exact ⟨rfl, rfl⟩

/-- Witness for C6: over an empty audit store, a first call at t=1000 with a
60-second window inserts row 1, and a second identical call at t=1030
returns exactly that row without inserting; meanwhile the same identical
call at t=1030 with no dedup window inserts a second row even though the
store already holds the in-window matching row 1. -/
theorem log_access_dedupe_window_witness :
    log_access [⟨1, some 7, some "admin", none, "read", some "user", some 2,
        none, true, 1000⟩] 1030 (some 7) (some "admin") none "read" (some "user")
        (some 2) none true (some 60) false
      = ([⟨1, some 7, some "admin", none, "read", some "user", some 2, none,
          true, 1000⟩],
         ⟨1, some 7, some "admin", none, "read", some "user", some 2, none,
          true, 1000⟩)
    ∧ (log_access [⟨1, some 7, some "admin", none, "read", some "user", some 2,
        none, true, 1000⟩] 1030 (some 7) (some "admin") none "read" (some "user")
        (some 2) none true none false).1
      = [⟨1, some 7, some "admin", none, "read", some "user", some 2, none,
          true, 1000⟩] ++
        [(log_access [⟨1, some 7, some "admin", none, "read", some "user",
            some 2, none, true, 1000⟩] 1030 (some 7) (some "admin") none "read"
            (some "user") (some 2) none true none false).2] := by
  have H := log_access_dedupe_window [] 1000 1030 (some 7) (some "admin") none
    "read" (some "user") (some 2) none true 60
  constructor
  · exact (H.1 (by decide) (Or.inl (by decide)) (by simp) (by decide) (by decide)
      [⟨1, some 7, some "admin", none, "read", some "user", some 2, none,
        true, 1000⟩]
      ⟨1, some 7, some "admin", none, "read", some "user", some 2, none, true, 1000⟩
      (by decide)).2
  · exact (H.2 [⟨1, some 7, some "admin", none, "read", some "user", some 2,
      none, true, 1000⟩] 1030 (some 7) (some "admin") none "read" (some "user")
      (some 2) none true).1

/-- C10: when the commit of a deduplicated access event fails, log_access
rolls back (the store is unchanged) and still returns the very same
AccessAudit object a successful call would have returned, so the caller
cannot distinguish a failed write from a successful one by the returned
record; with no dedup window the returned record was never persisted — its
id does not occur in the store. -/
theorem log_access_commit_failure_opaque (store : List AccessRec) (now : Nat)
    (actor : Option Nat) (arole tok : Option String) (act : String)
    (tt : Option String) (tid : Option Nat) (det : Option String) (suc : Bool)
    (ds : Option Nat) :
    (log_access store now actor arole tok act tt tid det suc ds true).2
      = (log_access store now actor arole tok act tt tid det suc ds false).2
    ∧ (log_access store now actor arole tok act tt tid det suc ds true).1 = store
    ∧ (ds = none →
        (log_access store now actor arole tok act tt tid det suc ds true).2.id
          ∉ store.map (fun r => r.id)) := by
  refine ⟨?_, ?_, ?_⟩
  · unfold log_access
    cases hdl : dedupLookup store now actor tok act tt tid ds with
    | some e => rfl
    | none => rfl
  · unfold log_access
    cases hdl : dedupLookup store now actor tok act tt tid ds with
    | some e => rfl
    | none => rfl
  · intro hds
    subst hds
    exact nextId_not_mem (store.map (fun r => r.id))

/-- Witness for C10: a failing commit over the empty store returns a record
with the fresh id 1, and the store stays empty. -/
theorem log_access_commit_failure_opaque_witness :
    (log_access [] 5 (some 1) none none "a" none none none true none true).1 = []
    ∧ (log_access [] 5 (some 1) none none "a" none none none true none true).2.id
        ∉ ([] : List AccessRec).map (fun r => r.id) := by
  have H := log_access_commit_failure_opaque [] 5 (some 1) none none "a" none
    none none true none
  exact ⟨H.2.1, H.2.2 rfl⟩

end Pandora
